import Mathlib

/-!
Shallow embedding of the BFL-API-Test edge service (src/src/index.ts and the
earlier variant src/unnamed/part_000) together with proofs about its poll
loops, request validation, response shaping and base64 encoding.

JavaScript strings that may be `undefined` are modelled as `Option String`
(with `none` for `undefined`); JS truthiness of such a value is falsity of
`none` and of the empty string.  Network effects are modelled by oracles:
a status-fetch oracle `Nat → FetchResult` gives the outcome of the n-th
fetch of the polling URL, and an upstream submitter `BflRequest →
UpstreamResp` gives the outcome of the one submission call.
-/

/-- JS `!s` for a string-or-undefined value: true on `undefined` and `""`. -/
def jsFalsyStr : Option String → Bool
  | none => true
  | some s => s == ""

/-- JS truthiness of a string-or-undefined value. -/
def truthyOptStr : Option String → Bool
  | none => false
  | some s => s != ""

/-- JS `a || b` restricted to string-or-undefined values. -/
def jsOrStr (a b : Option String) : Option String :=
  if truthyOptStr a then a else b

/-- Decimal digit value of a character, `none` when not a digit. -/
def decDigitVal (ch : Char) : Option Nat :=
  if '0' ≤ ch ∧ ch ≤ '9' then some (ch.toNat - 48) else none

/-- Hexadecimal digit value of a character, `none` when not a hex digit. -/
def hexDigitVal (ch : Char) : Option Nat :=
  if '0' ≤ ch ∧ ch ≤ '9' then some (ch.toNat - 48)
  else if 'a' ≤ ch ∧ ch ≤ 'f' then some (ch.toNat - 87)
  else if 'A' ≤ ch ∧ ch ≤ 'F' then some (ch.toNat - 55)
  else none

/-- Accumulate the longest run of valid digits, left to right. -/
def parseDigitsAcc (digitVal : Char → Option Nat) (base : Nat) : Nat → List Char → Nat
  | acc, [] => acc
  | acc, ch :: cs =>
    match digitVal ch with
    | none => acc
    | some d => parseDigitsAcc digitVal base (base * acc + d) cs

/-- Longest valid digit run starting the list; `none` when the first
character is not a valid digit (JS `parseInt` then yields `NaN`). -/
def parseDigits (digitVal : Char → Option Nat) (base : Nat) : List Char → Option Nat
  | [] => none
  | ch :: cs =>
    match digitVal ch with
    | none => none
    | some d => some (parseDigitsAcc digitVal base d cs)

/-- The whitespace characters JS `parseInt` skips (common subset). -/
def jsWhitespace (ch : Char) : Bool :=
  ch == ' ' || ch == '\t' || ch == '\n' || ch == '\r'

/-- Model of JS `parseInt(s)` with no radix argument: skip whitespace, read
an optional sign, detect a hex marker, then take the longest digit run;
`none` models `NaN`. -/
def jsParseInt (s : String) : Option Int :=
  let cs := s.data.dropWhile jsWhitespace
  let signAndRest : Bool × List Char :=
    match cs with
    | '-' :: rest => (true, rest)
    | '+' :: rest => (false, rest)
    | _ => (false, cs)
  let hexAndRest : Bool × List Char :=
    match signAndRest.2 with
    | '0' :: 'x' :: rest => (true, rest)
    | '0' :: 'X' :: rest => (true, rest)
    | _ => (false, signAndRest.2)
  let mag :=
    if hexAndRest.1 then parseDigits hexDigitVal 16 hexAndRest.2
    else parseDigits decDigitVal 10 hexAndRest.2
  match mag with
  | none => none
  | some n => some (if signAndRest.1 then -(n : Int) else (n : Int))

/-- Model of `parseInt(field) || dflt` on an optional form field: an absent
field parses as `NaN` (hence `dflt`), and a parse result of `0` (or `-0`)
is falsy, hence also replaced by `dflt`. -/
def jsParseIntOrDefault (field : Option String) (dflt : Int) : Int :=
  match field with
  | none => dflt
  | some s =>
    match jsParseInt s with
    | none => dflt
    | some n => if n = 0 then dflt else n

/-! Base64, as performed by `String.fromCharCode` over a `Uint8Array`
followed by `btoa` (source function `arrayBufferToBase64`). -/

/-- The standard base64 alphabet. -/
def b64Alphabet : List Char :=
  "ABCDEFGHIJKLMNOPQRSTUVWXYZabcdefghijklmnopqrstuvwxyz0123456789+/".data

/-- Character for a 6-bit group. -/
def b64Char (n : Nat) : Char := b64Alphabet.getD n 'A'

/-- Index of a character in the base64 alphabet. -/
def b64Index (ch : Char) : Option Nat := b64Alphabet.findIdx? (· = ch)

/-- Standard base64 encoding of a byte list (values < 256), with padding. -/
def b64EncodeBytes : List Nat → List Char
  | [] => []
  | [a] => [b64Char (a / 4), b64Char (a % 4 * 16), '=', '=']
  | [a, b] => [b64Char (a / 4), b64Char (a % 4 * 16 + b / 16), b64Char (b % 16 * 4), '=']
  | a :: b :: c :: rest =>
    b64Char (a / 4) :: b64Char (a % 4 * 16 + b / 16) ::
      b64Char (b % 16 * 4 + c / 64) :: b64Char (c % 64) :: b64EncodeBytes rest

/-- Standard base64 decoding back to bytes; `none` on malformed input. -/
def b64Decode : List Char → Option (List Nat)
  | [] => some []
  | c1 :: c2 :: c3 :: c4 :: rest =>
    (b64Index c1).bind fun i1 =>
    (b64Index c2).bind fun i2 =>
    if c3 = '=' then
      if c4 = '=' ∧ rest = [] then some [i1 * 4 + i2 / 16] else none
    else
      (b64Index c3).bind fun i3 =>
      if c4 = '=' then
        if rest = [] then some [i1 * 4 + i2 / 16, i2 % 16 * 16 + i3 / 4] else none
      else
        (b64Index c4).bind fun i4 =>
        (b64Decode rest).map fun bs =>
          (i1 * 4 + i2 / 16) :: (i2 % 16 * 16 + i3 / 4) :: (i3 % 4 * 64 + i4) :: bs
  | _ => none

/-- Decode a base64 string to its byte list. -/
def b64DecodeString (s : String) : Option (List Nat) := b64Decode s.data

/-- Model of `btoa` on a JS binary string whose code units are the given
byte values (all < 256 here, so `btoa` cannot throw). -/
def btoa (codeUnits : List Nat) : String := String.mk (b64EncodeBytes codeUnits)

/-- Source `arrayBufferToBase64`: build a binary string from the buffer
bytes via `String.fromCharCode`, then `btoa` it.  The byte values are the
string code units, so the result is the base64 encoding of the bytes. -/
def arrayBufferToBase64 (buffer : List (Fin 256)) : String :=
  btoa (buffer.map Fin.val)

/-! Data model for the handlers. -/

/-- The body of a fetched status payload, as the handlers read it:
`status`, the optional nested `result` object (itself with an optional
`sample` field), and the optional top-level `sample` field. -/
structure StatusPayload where
  status : String
  result : Option (Option String)
  sample : Option String
deriving DecidableEq

/-- Outcome of one fetch of the polling URL: `httpError` models a resolved
response with `response.ok` false, `ok` a parsed JSON payload. -/
inductive FetchResult where
  | httpError
  | ok (data : StatusPayload)
deriving DecidableEq

/-- A multipart form field value: an uploaded file (its bytes) or a plain
string; the handlers only proceed on a `File` value. -/
inductive FormField where
  | file (bytes : List (Fin 256))
  | str (s : String)
deriving DecidableEq

/-- The form fields the handlers read (absent fields are `none`). -/
structure GenForm where
  prompt : Option String
  image : Option FormField
  width : Option String
  height : Option String
deriving DecidableEq

/-- The JSON body sent to the upstream generation API (lines 39-47 and
174-182 of src/src/index.ts). -/
structure BflRequest where
  prompt : String
  input_image : String
  seed : Nat
  width : Int
  height : Int
  safety_tolerance : Nat
  output_format : String
deriving DecidableEq

/-- The parsed JSON of a successful upstream submission; the handlers only
read `polling_url` (absent in `/api/create`, which echoes the object). -/
structure SubmitJson where
  polling_url : Option String
deriving DecidableEq

/-- Outcome of the one upstream submission call. -/
inductive UpstreamResp where
  | httpError (text : String)
  | ok (json : SubmitJson)
deriving DecidableEq

/-- The JSON response bodies the handlers produce, one constructor per
`c.json` shape in the source. -/
inductive RespBody where
  | errorBody (msg : String)
  | imageBody (url : Option String)
  | createSuccessBody (result : SubmitJson) (prompt timestamp : String)
  | errorDetailsBody (msg details : String)
  | messageErrorBody (msg err : String)
deriving DecidableEq

/-- An HTTP response: status code and JSON body. -/
structure Resp where
  code : Nat
  body : RespBody
deriving DecidableEq

/-- The fixed fallback prompt used when the submitted prompt is falsy. -/
def defaultPrompt : String :=
  "[photo reference 1] people with minimal cybernetic enhancements: Illuminated seam detailing on jacket collar reacting to ambient light, Subtle holographic data stream projection floating around the person. Background from [photo reference 2] (text removed) with cyberpunk color grading, Photorealistic, sci-fi. take inspiration from [photo reference 3]"

/-! The poll loop of `/api/generate` (src/src/index.ts lines 205-232).
The loop is instrumented with a virtual clock: each fetch is stamped with
its start time, `lat n` is the (arbitrary, nonnegative) duration of the
n-th fetch, and the `setTimeout` sleep advances the clock by `delayMs`.
The second component of the result lists the fetch start times in order,
so its length is the number of status fetches issued. -/

/-- How the `/api/generate` poll loop can end. -/
inductive GenLoopExit where
  | fetchFailed
  | unexpected (status : String)
  | exited (attempts : Nat) (data : Option StatusPayload)
deriving DecidableEq

/-- The `while (attempts < maxAttempts)` loop of `/api/generate`. -/
def genLoop (oracle : Nat → FetchResult) (lat : Nat → Nat) (maxAttempts delayMs : Nat)
    (attempts t : Nat) (data : Option StatusPayload) : GenLoopExit × List Nat :=
  if h : attempts < maxAttempts then
    match oracle attempts with
    | .httpError => (.fetchFailed, [t])
    | .ok d =>
      if d.status = "Ready" then (.exited (attempts + 1) (some d), [t])
      else if d.status = "Pending" then
        let r := genLoop oracle lat maxAttempts delayMs (attempts + 1)
          (t + lat attempts + delayMs) (some d)
        (r.1, t :: r.2)
      else (.unexpected d.status, [t])
  else (.exited attempts data, [])
termination_by maxAttempts - attempts
decreasing_by omega

/-- Extraction of the image URL from a terminal payload on `/api/generate`
(line 252): `data.result?.sample || data.sample`. -/
def genExtractSample (d : StatusPayload) : Option String :=
  jsOrStr (d.result.bind id) d.sample

/-- Lines 205-260 of src/src/index.ts: the poll loop followed by the
timeout check, the status check, and sample extraction, returning the
response and the list of fetch start times.  The `none` data branch models
the JS property access on an undefined `data` (thrown and caught at line
261); it is reachable only when `maxAttempts = 0`. -/
def genPollPart (oracle : Nat → FetchResult) (lat : Nat → Nat)
    (maxAttempts delayMs : Nat) : Resp × List Nat :=
  let r := genLoop oracle lat maxAttempts delayMs 0 0 none
  (match r.1 with
   | .fetchFailed => ⟨500, .errorBody "Failed to fetch polling status"⟩
   | .unexpected s => ⟨500, .errorBody ("Unexpected status: " ++ s)⟩
   | .exited attempts data =>
     if maxAttempts ≤ attempts then
       ⟨500, .errorBody "Image processing timed out after multiple attempts"⟩
     else
       match data with
       | none => ⟨500, .messageErrorBody "failed to generate Image" "TypeError: data is undefined"⟩
       | some d =>
         if d.status ≠ "Ready" then
           ⟨500, .errorBody ("Image processing failed with status: " ++ d.status)⟩
         else
           let u := genExtractSample d
           if truthyOptStr u then ⟨200, .imageBody u⟩
           else ⟨500, .errorBody "No image URL in result"⟩,
   r.2)

/-- The `/api/generate` handler (src/src/index.ts lines 145-271): API-key
check, form parsing with width/height/prompt defaulting, image check,
upstream submission, polling-URL check, then the poll part.  Returns the
response, the upstream request actually submitted (`none` when no upstream
call was made), and the poll-fetch start times. -/
def generateHandler (apiKey : Option String) (form : GenForm)
    (upstream : BflRequest → UpstreamResp) (oracle : Nat → FetchResult)
    (lat : Nat → Nat) : Resp × Option BflRequest × List Nat :=
  if jsFalsyStr apiKey then (⟨500, .errorBody "API key missing"⟩, none, [])
  else
    let imageWidth := jsParseIntOrDefault form.width 1024
    let imageHeight := jsParseIntOrDefault form.height 1024
    let imagePrompt :=
      match form.prompt with
      | none => defaultPrompt
      | some s => if s = "" then defaultPrompt else s
    match form.image with
    | some (.file bytes) =>
      let base64Image := arrayBufferToBase64 bytes
      let req : BflRequest :=
        { prompt := imagePrompt, input_image := base64Image, seed := 1,
          width := imageWidth, height := imageHeight, safety_tolerance := 0,
          output_format := "jpeg" }
      match upstream req with
      | .httpError e => (⟨500, .errorBody ("BFL API error: " ++ e)⟩, some req, [])
      | .ok j =>
        if jsFalsyStr j.polling_url then
          (⟨500, .errorBody "No polling URL returned from BFL API"⟩, some req, [])
        else
          let r := genPollPart oracle lat 45 2000
          (r.1, some req, r.2)
    | _ => (⟨400, .errorBody "Image file required"⟩, none, [])

/-- The `/api/create` handler (src/src/index.ts lines 13-74): API-key
check, strict prompt check, image check, upstream submission with fixed
512x512 dimensions, echoing the upstream JSON on success.  Returns the
response and the upstream request submitted (`none` when no call made). -/
def createHandler (apiKey : Option String) (form : GenForm)
    (upstream : BflRequest → UpstreamResp) (now : String) :
    Resp × Option BflRequest :=
  if jsFalsyStr apiKey then (⟨500, .errorBody "API key missing"⟩, none)
  else if jsFalsyStr form.prompt then (⟨400, .errorBody "Prompt required"⟩, none)
  else
    match form.image with
    | some (.file bytes) =>
      let base64 := arrayBufferToBase64 bytes
      let req : BflRequest :=
        { prompt := form.prompt.getD "", input_image := base64, seed := 1,
          width := 512, height := 512, safety_tolerance := 0,
          output_format := "jpeg" }
      match upstream req with
      | .httpError e => (⟨500, .errorBody ("BFL API error: " ++ e)⟩, some req)
      | .ok j => (⟨200, .createSuccessBody j (form.prompt.getD "") now⟩, some req)
    | _ => (⟨400, .errorBody "Image file required"⟩, none)

/-- The `/api/generate` handler of src/unnamed/part_000 (lines 17-75) is
the same code as `/api/create` of src/src/index.ts apart from a dead local
string inside the empty-prompt branch, so it shares its embedding. -/
def part000GenerateHandler (apiKey : Option String) (form : GenForm)
    (upstream : BflRequest → UpstreamResp) (now : String) :
    Resp × Option BflRequest :=
  createHandler apiKey form upstream now

/-! The `/api/getImage` loop of src/src/index.ts (lines 93-113).  Each
iteration issues the status fetch whose payload is read, then a second
fetch whose result is discarded (line 107), with no sleep.  `counter`
starts at 1 and the loop breaks when it reaches 120, so at most 119
iterations run; the `120 ≤ counter + 1` test is the source's
`counter == 120` test, which with the start value 1 first fires at exactly
120 (the inequality makes termination evident).  `fetchIdx` is the number
of fetches issued so far; the second result component is the total number
of fetches issued. -/

/-- How the `/api/getImage` loop can end. -/
inductive GetImageExit where
  | fetchFailed
  | exited (status : String) (data : Option StatusPayload)
deriving DecidableEq

/-- The `while (status === 'Pending')` loop of `/api/getImage`. -/
def getImageLoop (oracle : Nat → FetchResult) (status : String)
    (counter fetchIdx : Nat) (data : Option StatusPayload) :
    GetImageExit × Nat :=
  if status = "Pending" then
    match oracle fetchIdx with
    | .httpError => (.fetchFailed, fetchIdx + 1)
    | .ok d =>
      if h : 120 ≤ counter + 1 then (.exited d.status (some d), fetchIdx + 2)
      else getImageLoop oracle d.status (counter + 1) (fetchIdx + 2) (some d)
  else (.exited status data, fetchIdx)
termination_by 120 - counter
decreasing_by omega

/-- The `/api/getImage` handler of src/src/index.ts (lines 85-132).  After
the loop, a still-`Pending` status is reported as pending; otherwise the
handler reads `data.result.sample` with no guard, so an absent `result`
object throws a `TypeError` that the catch block converts to a 500 with
details.  Returns the response and the number of fetches issued. -/
def getImageHandler (imageUrl : Option String) (oracle : Nat → FetchResult) :
    Resp × Nat :=
  if jsFalsyStr imageUrl then (⟨400, .errorBody "Image URL is required"⟩, 0)
  else
    let r := getImageLoop oracle "Pending" 1 0 none
    (match r.1 with
     | .fetchFailed => ⟨500, .errorBody "Failed to fetch image"⟩
     | .exited status data =>
       if status = "Pending" then ⟨500, .errorBody "Image processing is pending"⟩
       else
         match data with
         | none =>
           ⟨500, .errorDetailsBody "Failed to process image request"
             "TypeError: data is undefined"⟩
         | some d =>
           match d.result with
           | none =>
             ⟨500, .errorDetailsBody "Failed to process image request"
               "TypeError: data.result is undefined"⟩
           | some sampleField => ⟨200, .imageBody sampleField⟩,
     r.2)

/-- The loop of `/api/getImage` in src/unnamed/part_000 (lines 102-109):
the payload fetched once before the loop is never re-read, each iteration
issues one discarded fetch, `counter` starts at 1 and the loop breaks when
it reaches 10 (the `10 ≤ counter + 1` test is the source's
`counter == 10`, which with start value 1 first fires at exactly 10).
Returns the number of fetches the loop issues. -/
def part000GetImageLoop (status : String) (counter fetchIdx : Nat) : Nat :=
  if status = "Pending" then
    if h : 10 ≤ counter + 1 then fetchIdx + 1
    else part000GetImageLoop status (counter + 1) (fetchIdx + 1)
  else fetchIdx
termination_by 10 - counter
decreasing_by omega

/-- The `/api/getImage` handler of src/unnamed/part_000 (lines 86-128):
one status fetch, then the no-op loop, then the pending check and the
unguarded `data.result.sample` read.  Returns the response and the total
number of fetches issued. -/
def part000GetImageHandler (imageUrl : Option String)
    (oracle : Nat → FetchResult) : Resp × Nat :=
  if jsFalsyStr imageUrl then (⟨400, .errorBody "Image URL is required"⟩, 0)
  else
    match oracle 0 with
    | .httpError => (⟨500, .errorBody "Failed to fetch image"⟩, 1)
    | .ok d =>
      let loopFetches := part000GetImageLoop d.status 1 0
      (if d.status = "Pending" then ⟨500, .errorBody "Image processing is pending"⟩
       else
         match d.result with
         | none =>
           ⟨500, .errorDetailsBody "Failed to process image request"
             "TypeError: data.result is undefined"⟩
         | some sampleField => ⟨200, .imageBody sampleField⟩,
       1 + loopFetches)

/-! Helper lemmas about the poll loops. -/

/-- The fetch-time trace of the `/api/generate` loop: at most `m - a`
fetches happen, every stamp is at least the current time, and consecutive
stamps are at least `delayMs` apart. -/
theorem genLoop_times_spec (oracle : Nat → FetchResult) (lat : Nat → Nat)
    (m dm : Nat) : ∀ (n a t : Nat) (data : Option StatusPayload), m - a ≤ n →
    (genLoop oracle lat m dm a t data).2.length ≤ m - a ∧
    (∀ x ∈ (genLoop oracle lat m dm a t data).2, t ≤ x) ∧
    (genLoop oracle lat m dm a t data).2.Chain' (fun x y => x + dm ≤ y) := by
  intro n
  induction n with
  | zero =>
    intro a t data h
    unfold genLoop
    rw [dif_neg (by omega)]
    simp
  | succ n ih =>
    intro a t data h
    by_cases ha : a < m
    · unfold genLoop
      rw [dif_pos ha]
      rcases ho : oracle a with _ | d
      · simp; omega
      · simp only []
        by_cases hR : d.status = "Ready"
        · rw [if_pos hR]; simp; omega
        · rw [if_neg hR]
          by_cases hP : d.status = "Pending"
          · rw [if_pos hP]
            have := ih (a + 1) (t + lat a + dm) (some d) (by omega)
            rcases this with ⟨h1, h2, h3⟩
            refine ⟨?_, ?_, ?_⟩
            · simpa using by omega
            · intro x hx
              simp only [List.mem_cons] at hx
              rcases hx with rfl | hx
              · exact le_refl x
              · have := h2 x hx; omega
            · rw [List.chain'_cons']
              refine ⟨?_, h3⟩
              intro y hy
              have hym : y ∈ (genLoop oracle lat m dm (a + 1) (t + lat a + dm) (some d)).2 :=
                List.mem_of_mem_head? hy
              have := h2 y hym
              omega
          · rw [if_neg hP]; simp; omega
    · unfold genLoop
      rw [dif_neg ha]
      simp

/-- Running the `/api/generate` loop: after `n` Pending fetches, a fetch
that returns `Ready` stops the loop with `attempts = a + n + 1` and one
fetch-time stamp per fetch. -/
theorem genLoop_pending_then_ready (oracle : Nat → FetchResult) (lat : Nat → Nat)
    (m dm : Nat) : ∀ (n a t : Nat) (data : Option StatusPayload) (d : StatusPayload),
    (∀ i, a ≤ i → i < a + n → ∃ p, oracle i = FetchResult.ok p ∧ p.status = "Pending") →
    a + n < m → oracle (a + n) = FetchResult.ok d → d.status = "Ready" →
    ∃ ts, genLoop oracle lat m dm a t data =
        (GenLoopExit.exited (a + n + 1) (some d), ts) ∧ ts.length = n + 1 := by
  intro n
  induction n with
  | zero =>
    intro a t data d hpend hlt hor hd
    unfold genLoop
    rw [dif_pos (by omega)]
    simp only [Nat.add_zero] at hor
    rw [hor]
    simp only []
    rw [if_pos hd]
    exact ⟨[t], by simp⟩
  | succ n ih =>
    intro a t data d hpend hlt hor hd
    obtain ⟨p, hop, hps⟩ := hpend a (le_refl a) (by omega)
    obtain ⟨ts, hts, hlen⟩ := ih (a + 1) (t + lat a + dm) (some p) d
      (fun i hi1 hi2 => hpend i (by omega) (by omega)) (by omega)
      (by rw [show a + 1 + n = a + (n + 1) by omega]; exact hor) hd
    unfold genLoop
    rw [dif_pos (by omega), hop]
    simp only []
    rw [if_neg (by rw [hps]; decide), if_pos hps]
    refine ⟨t :: ts, ?_, by simp [hlen]⟩
    simp only [hts]
    rw [show a + 1 + n + 1 = a + (n + 1) + 1 by omega]

/-- Running the `/api/generate` loop on a job that stays `Pending` for
every remaining attempt: the loop exhausts the budget with
`attempts = maxAttempts` and one stamp per fetch. -/
theorem genLoop_all_pending (oracle : Nat → FetchResult) (lat : Nat → Nat)
    (m dm : Nat) : ∀ (n a t : Nat) (data : Option StatusPayload), a + n = m →
    (∀ i, a ≤ i → i < m → ∃ p, oracle i = FetchResult.ok p ∧ p.status = "Pending") →
    ∃ ts data2, genLoop oracle lat m dm a t data = (GenLoopExit.exited m data2, ts) ∧
      ts.length = n := by
  intro n
  induction n with
  | zero =>
    intro a t data hm hpend
    unfold genLoop
    rw [dif_neg (by omega)]
    exact ⟨[], data, by rw [show a = m by omega], by simp⟩
  | succ n ih =>
    intro a t data hm hpend
    obtain ⟨p, hop, hps⟩ := hpend a (le_refl a) (by omega)
    obtain ⟨ts, data2, hts, hlen⟩ := ih (a + 1) (t + lat a + dm) (some p) (by omega)
      (fun i hi1 hi2 => hpend i (by omega) hi2)
    unfold genLoop
    rw [dif_pos (by omega), hop]
    simp only []
    rw [if_neg (by rw [hps]; decide), if_pos hps]
    refine ⟨t :: ts, data2, ?_, by simp [hlen]⟩
    simp only [hts]

/-- Fetch-count bound for the `/api/getImage` loop of src/src/index.ts:
starting from a counter of at most 119, the loop issues at most two more
fetches per remaining counter step. -/
theorem getImageLoop_fetches_le (oracle : Nat → FetchResult) :
    ∀ (n : Nat) (status : String) (counter fetchIdx : Nat)
      (data : Option StatusPayload), 120 - counter ≤ n → counter ≤ 119 →
    (getImageLoop oracle status counter fetchIdx data).2 ≤
      fetchIdx + 2 * (120 - counter) := by
  intro n
  induction n with
  | zero => intro status counter fetchIdx data h1 h2; omega
  | succ n ih =>
    intro status counter fetchIdx data h1 h2
    unfold getImageLoop
    by_cases hs : status = "Pending"
    · rw [if_pos hs]
      rcases ho : oracle fetchIdx with _ | d
      · simp only []; omega
      · simp only []
        by_cases hb : 120 ≤ counter + 1
        · rw [dif_pos hb]; simp only []; omega
        · rw [dif_neg hb]
          have := ih d.status (counter + 1) (fetchIdx + 2) (some d) (by omega) (by omega)
          omega
    · rw [if_neg hs]; simp only []; omega

/-- Fetch-count bound for the `/api/getImage` loop of src/unnamed/part_000:
at most one fetch per remaining counter step. -/
theorem part000GetImageLoop_fetches_le :
    ∀ (n : Nat) (status : String) (counter fetchIdx : Nat),
      10 - counter ≤ n → counter ≤ 9 →
    part000GetImageLoop status counter fetchIdx ≤ fetchIdx + (10 - counter) := by
  intro n
  induction n with
  | zero => intro status counter fetchIdx h1 h2; omega
  | succ n ih =>
    intro status counter fetchIdx h1 h2
    unfold part000GetImageLoop
    by_cases hs : status = "Pending"
    · rw [if_pos hs]
      by_cases hb : 10 ≤ counter + 1
      · rw [dif_pos hb]; omega
      · rw [dif_neg hb]
        have := ih status (counter + 1) (fetchIdx + 1) (by omega) (by omega)
        omega
    · rw [if_neg hs]; omega

/-- The timeout failure message differs from every unexpected-status
failure message. -/
theorem unexpected_ne_timeout (s : String) :
    "Unexpected status: " ++ s ≠ "Image processing timed out after multiple attempts" := by
  intro h
  have h2 := congrArg String.data h
  rw [String.data_append] at h2
  rw [show "Unexpected status: ".data = 'U' :: "nexpected status: ".data from rfl] at h2
  rw [show "Image processing timed out after multiple attempts".data =
    'I' :: "mage processing timed out after multiple attempts".data from rfl] at h2
  simp at h2

/-- C1 (amended): for every job whose status fetch returns `Ready` on some
attempt k with 1 <= k <= maxAttempts - 1, the `/api/generate` poll loop
returns the extracted image URL (HTTP 200 with the image body) and issues
exactly k status fetches, none after the fetch that observed the terminal
status.  (At k = maxAttempts the code instead reports a timeout, and the
`/api/getImage` variant issues one extra discarded fetch after the
terminal observation; see the counterexample.) -/
theorem claim1_generate_ready_before_budget (oracle : Nat → FetchResult)
    (lat : Nat → Nat) (m dm k : Nat) (d : StatusPayload) (u : String)
    (hk1 : 1 ≤ k) (hk2 : k < m)
    (hpend : ∀ i, i + 1 < k → ∃ p, oracle i = FetchResult.ok p ∧ p.status = "Pending")
    (hready : oracle (k - 1) = FetchResult.ok d) (hd : d.status = "Ready")
    (hu : genExtractSample d = some u) (hune : u ≠ "") :
    (genPollPart oracle lat m dm).1 = ⟨200, .imageBody (some u)⟩ ∧
    (genPollPart oracle lat m dm).2.length = k := by
  obtain ⟨ts, hts, hlen⟩ := genLoop_pending_then_ready oracle lat m dm (k - 1) 0 0 none d
    (fun i hi1 hi2 => hpend i (by omega)) (by omega)
    (by rw [show 0 + (k - 1) = k - 1 by omega]; exact hready) hd
  rw [show 0 + (k - 1) + 1 = k by omega] at hts
  unfold genPollPart
  simp only [hts]
  rw [if_neg (by omega)]
  rw [if_neg (by rw [hd]; simp)]
  rw [hu]
  have ht : truthyOptStr (some u) = true := by
    simp [truthyOptStr]; exact hune
  rw [if_pos ht]
  exact ⟨rfl, by omega⟩

/-- Status oracle for the C1 witness: Pending twice, then Ready with a
nested sample. -/
def c1WitnessOracle : Nat → FetchResult := fun i =>
  if i < 2 then .ok ⟨"Pending", none, none⟩
  else .ok ⟨"Ready", some (some "https://x/img.jpg"), none⟩

/-- C1 witness: a job Ready on attempt 3 of 45 yields the image response
after exactly 3 fetches. -/
theorem claim1_witness :
    (genPollPart c1WitnessOracle (fun _ => 0) 45 2000).1 =
      ⟨200, .imageBody (some "https://x/img.jpg")⟩ ∧
    (genPollPart c1WitnessOracle (fun _ => 0) 45 2000).2.length = 3 :=
  claim1_generate_ready_before_budget c1WitnessOracle (fun _ => 0) 45 2000 3
    ⟨"Ready", some (some "https://x/img.jpg"), none⟩ "https://x/img.jpg"
    (by omega) (by omega)
    (fun i hi => ⟨⟨"Pending", none, none⟩,
      by unfold c1WitnessOracle; rw [if_pos (show i < 2 by omega)], rfl⟩)
    rfl rfl rfl (by simp)

/-- Status oracle refuting C1 as stated: Pending on attempts 1-44, Ready
(with an extractable sample) on attempt 45 = maxAttempts. -/
def c1TimeoutOracle : Nat → FetchResult := fun i =>
  if i < 44 then .ok ⟨"Pending", none, none⟩
  else .ok ⟨"Ready", some (some "https://x/img.jpg"), none⟩

set_option maxRecDepth 8000 in
/-- C1 counterexample: the status fetch returns `Ready` on attempt
k = 45 = maxAttempts (within the claimed bound 1 <= k <= maxAttempts), yet
the `/api/generate` poll part reports the timeout failure instead of the
image URL. -/
theorem claim1_counterexample :
    c1TimeoutOracle 44 = FetchResult.ok ⟨"Ready", some (some "https://x/img.jpg"), none⟩ ∧
    (genPollPart c1TimeoutOracle (fun _ => 0) 45 2000).1 =
      ⟨500, .errorBody "Image processing timed out after multiple attempts"⟩ := by
  constructor
  · rfl
  · simp [genPollPart, genLoop, c1TimeoutOracle]

/-- C2 (confirmed): for every job whose status fetch returns `Pending` on
all of the first maxAttempts attempts, the `/api/generate` poll loop
returns the Timeout failure, exactly maxAttempts status fetches are
issued, and every two consecutive status fetches start at least delayMs
milliseconds apart. -/
theorem claim2_pending_exhausts_budget (oracle : Nat → FetchResult)
    (lat : Nat → Nat) (m dm : Nat)
    (hpend : ∀ i, i < m → ∃ p, oracle i = FetchResult.ok p ∧ p.status = "Pending") :
    (genPollPart oracle lat m dm).1 =
      ⟨500, .errorBody "Image processing timed out after multiple attempts"⟩ ∧
    (genPollPart oracle lat m dm).2.length = m ∧
    (genPollPart oracle lat m dm).2.Chain' (fun x y => x + dm ≤ y) := by
  obtain ⟨ts, data2, hts, hlen⟩ := genLoop_all_pending oracle lat m dm m 0 0 none
    (by omega) (fun i _ hi => hpend i hi)
  have hchain := (genLoop_times_spec oracle lat m dm m 0 0 none (by omega)).2.2
  unfold genPollPart
  simp only [hts] at hchain ⊢
  rw [if_pos (le_refl m)]
  exact ⟨rfl, hlen, hchain⟩

/-- Always-Pending status oracle for the C2 and C3 witnesses. -/
def pendingOracle : Nat → FetchResult := fun _ => .ok ⟨"Pending", none, none⟩

/-- C2 witness: with maxAttempts 45 and delayMs 2000 an always-Pending job
times out after exactly 45 fetches spaced at least 2000 apart. -/
theorem claim2_witness :
    (genPollPart pendingOracle (fun _ => 0) 45 2000).1 =
      ⟨500, .errorBody "Image processing timed out after multiple attempts"⟩ ∧
    (genPollPart pendingOracle (fun _ => 0) 45 2000).2.length = 45 ∧
    (genPollPart pendingOracle (fun _ => 0) 45 2000).2.Chain'
      (fun x y => x + 2000 ≤ y) :=
  claim2_pending_exhausts_budget pendingOracle (fun _ => 0) 45 2000
    (fun i _ => ⟨⟨"Pending", none, none⟩, rfl, rfl⟩)

/-- C3 (amended): the `/api/generate` poll loop fetches the status URL at
most maxAttempts = 45 times with at least delayMs = 2000 between
consecutive fetch starts, and exhausting its budget while `Pending` is a
failure distinct from every unexpected-status failure; the `/api/getImage`
variants poll with no inter-poll delay and with observed fetch bounds 238
(src/src/index.ts: up to 119 iterations of two fetches each) and 10
(src/unnamed/part_000), not 10/30/45. -/
theorem claim3_per_variant_fetch_bounds :
    (∀ (oracle : Nat → FetchResult) (lat : Nat → Nat) (m dm : Nat),
      (genPollPart oracle lat m dm).2.length ≤ m) ∧
    (∀ (oracle : Nat → FetchResult) (lat : Nat → Nat) (m dm : Nat),
      (genPollPart oracle lat m dm).2.Chain' (fun x y => x + dm ≤ y)) ∧
    (∀ (imageUrl : Option String) (oracle : Nat → FetchResult),
      (getImageHandler imageUrl oracle).2 ≤ 238) ∧
    (∀ (imageUrl : Option String) (oracle : Nat → FetchResult),
      (part000GetImageHandler imageUrl oracle).2 ≤ 10) ∧
    (∀ s : String,
      (⟨500, .errorBody ("Unexpected status: " ++ s)⟩ : Resp) ≠
      ⟨500, .errorBody "Image processing timed out after multiple attempts"⟩) := by
  refine ⟨?_, ?_, ?_, ?_, ?_⟩
  · intro oracle lat m dm
    have := (genLoop_times_spec oracle lat m dm m 0 0 none (by omega)).1
    unfold genPollPart
    simpa using by simpa using this
  · intro oracle lat m dm
    have := (genLoop_times_spec oracle lat m dm m 0 0 none (by omega)).2.2
    unfold genPollPart
    simpa using this
  · intro imageUrl oracle
    unfold getImageHandler
    by_cases hf : jsFalsyStr imageUrl
    · rw [if_pos hf]; omega
    · rw [if_neg hf]
      have := getImageLoop_fetches_le oracle 119 "Pending" 1 0 none (by omega) (by omega)
      simpa using by omega
  · intro imageUrl oracle
    unfold part000GetImageHandler
    by_cases hf : jsFalsyStr imageUrl
    · rw [if_pos hf]; omega
    · rw [if_neg hf]
      rcases oracle 0 with _ | d
      · simp
      · simp only []
        have := part000GetImageLoop_fetches_le 9 d.status 1 0 (by omega) (by omega)
        omega
  · intro s h
    have h1 : RespBody.errorBody ("Unexpected status: " ++ s) =
        RespBody.errorBody "Image processing timed out after multiple attempts" :=
      congrArg Resp.body h
    exact unexpected_ne_timeout s (by injection h1)

set_option maxRecDepth 16000 in
/-- C3 counterexample: on an always-Pending job, the `/api/getImage`
variant of src/src/index.ts fetches the caller-supplied status URL exactly
238 times (119 iterations of two fetches each), exceeding every bound in
the claimed set of observed values 10/30/45. -/
theorem claim3_counterexample :
    (getImageHandler (some "https://poll.example/job") pendingOracle).2 = 238 ∧
    45 < 238 := by
  constructor
  · simp [getImageHandler, getImageLoop, pendingOracle, jsFalsyStr]
  · omega

/-- Whether a response body is the image-success object. -/
def isImageSuccess : RespBody → Bool
  | .imageBody _ => true
  | _ => false

/-- Whether a response body is the `/api/create` success object
(success flag, echoed upstream result, prompt, timestamp). -/
def isCreateSuccess : RespBody → Bool
  | .createSuccessBody _ _ _ => true
  | _ => false

/-- Whether a response body carries an error message field. -/
def carriesError : RespBody → Bool
  | .errorBody _ => true
  | .errorDetailsBody _ _ => true
  | .messageErrorBody _ _ => true
  | _ => false

/-- Every response of the `/api/generate` poll part is either a 200 image
success or a 500 error-bearing body. -/
theorem genPollPart_shape (oracle : Nat → FetchResult) (lat : Nat → Nat)
    (m dm : Nat) :
    ((genPollPart oracle lat m dm).1.code = 200 ∧
      isImageSuccess (genPollPart oracle lat m dm).1.body = true) ∨
    ((genPollPart oracle lat m dm).1.code = 500 ∧
      carriesError (genPollPart oracle lat m dm).1.body = true) := by
  rcases hE : (genLoop oracle lat m dm 0 0 none).1 with _ | s | ⟨att, data⟩ <;>
    simp only [genPollPart, hE]
  · simp [carriesError]
  · simp [carriesError]
  · by_cases h1 : m ≤ att
    · rw [if_pos h1]; simp [carriesError]
    · rw [if_neg h1]
      rcases data with _ | d
      · simp [carriesError]
      · simp only []
        by_cases h2 : d.status ≠ "Ready"
        · rw [if_pos h2]; simp [carriesError]
        · rw [if_neg h2]
          by_cases h3 : truthyOptStr (genExtractSample d) = true
          · rw [if_pos h3]; simp [isImageSuccess]
          · rw [if_neg h3]; simp [carriesError]

/-- C4 (amended): every `/api/generate` response is either HTTP 200 with
the image-URL body or HTTP 400/500 with an error-bearing body; every
`/api/create` response is either HTTP 200 with the
success/result/prompt/timestamp body (not the image body the claim
states) or HTTP 400/500 with an error body. -/
theorem claim4_response_shapes :
    (∀ (apiKey : Option String) (form : GenForm)
      (upstream : BflRequest → UpstreamResp) (oracle : Nat → FetchResult)
      (lat : Nat → Nat),
      ((generateHandler apiKey form upstream oracle lat).1.code = 200 ∧
        isImageSuccess (generateHandler apiKey form upstream oracle lat).1.body = true) ∨
      (((generateHandler apiKey form upstream oracle lat).1.code = 400 ∨
        (generateHandler apiKey form upstream oracle lat).1.code = 500) ∧
        carriesError (generateHandler apiKey form upstream oracle lat).1.body = true)) ∧
    (∀ (apiKey : Option String) (form : GenForm)
      (upstream : BflRequest → UpstreamResp) (now : String),
      ((createHandler apiKey form upstream now).1.code = 200 ∧
        isCreateSuccess (createHandler apiKey form upstream now).1.body = true) ∨
      (((createHandler apiKey form upstream now).1.code = 400 ∨
        (createHandler apiKey form upstream now).1.code = 500) ∧
        carriesError (createHandler apiKey form upstream now).1.body = true)) := by
  constructor
  · intro apiKey form upstream oracle lat
    unfold generateHandler
    by_cases hk : jsFalsyStr apiKey = true
    · rw [if_pos hk]; right; exact ⟨Or.inr rfl, rfl⟩
    · rw [if_neg hk]
      simp only []
      rcases form.image with _ | f
      · right; exact ⟨Or.inl rfl, rfl⟩
      · rcases f with bytes | s
        · simp only []
          rcases upstream _ with e | j
          · right; exact ⟨Or.inr rfl, rfl⟩
          · simp only []
            by_cases hp : jsFalsyStr j.polling_url = true
            · rw [if_pos hp]; right; exact ⟨Or.inr rfl, rfl⟩
            · rw [if_neg hp]
              rcases genPollPart_shape oracle lat 45 2000 with ⟨h1, h2⟩ | ⟨h1, h2⟩
              · left; exact ⟨h1, h2⟩
              · right; exact ⟨Or.inr h1, h2⟩
        · right; exact ⟨Or.inl rfl, rfl⟩
  · intro apiKey form upstream now
    unfold createHandler
    by_cases hk : jsFalsyStr apiKey = true
    · rw [if_pos hk]; right; exact ⟨Or.inr rfl, rfl⟩
    · rw [if_neg hk]
      by_cases hp : jsFalsyStr form.prompt = true
      · rw [if_pos hp]; right; exact ⟨Or.inl rfl, rfl⟩
      · rw [if_neg hp]
        rcases form.image with _ | f
        · right; exact ⟨Or.inl rfl, rfl⟩
        · rcases f with bytes | s
          · simp only []
            rcases upstream _ with e | j
            · right; exact ⟨Or.inr rfl, rfl⟩
            · left; exact ⟨rfl, rfl⟩
          · right; exact ⟨Or.inl rfl, rfl⟩

/-- A valid form submission shared by several concrete runs below. -/
def okForm : GenForm := ⟨some "p", some (.file []), none, none⟩

/-- An upstream submitter that accepts and returns a polling URL. -/
def okUpstream : BflRequest → UpstreamResp :=
  fun _ => .ok ⟨some "https://poll.example/job"⟩

/-- C4 counterexample: a successful `/api/create` request answers HTTP 200
whose body is not the image object the claim requires (it is the
success/result/prompt/timestamp object). -/
theorem claim4_counterexample :
    (createHandler (some "key") okForm okUpstream "2026-01-01T00:00:00.000Z").1.code = 200 ∧
    isImageSuccess
      (createHandler (some "key") okForm okUpstream "2026-01-01T00:00:00.000Z").1.body = false ∧
    isCreateSuccess
      (createHandler (some "key") okForm okUpstream "2026-01-01T00:00:00.000Z").1.body = true :=
  ⟨rfl, rfl, rfl⟩

/-- The upstream request submitted by `/api/generate`, when one is
submitted, carries exactly the parsed-or-defaulted width and height. -/
theorem generateHandler_dims (apiKey : Option String) (form : GenForm)
    (upstream : BflRequest → UpstreamResp) (oracle : Nat → FetchResult)
    (lat : Nat → Nat) :
    ((generateHandler apiKey form upstream oracle lat).2.1).map
      (fun r => (r.width, r.height)) = none ∨
    ((generateHandler apiKey form upstream oracle lat).2.1).map
      (fun r => (r.width, r.height)) =
      some (jsParseIntOrDefault form.width 1024, jsParseIntOrDefault form.height 1024) := by
  unfold generateHandler
  repeat' (first | split | simp only [])
  all_goals simp

/-- The upstream request submitted by `/api/create`, when one is
submitted, carries the fixed 512 x 512 dimensions. -/
theorem createHandler_dims (apiKey : Option String) (form : GenForm)
    (upstream : BflRequest → UpstreamResp) (now : String) :
    ((createHandler apiKey form upstream now).2).map
      (fun r => (r.width, r.height)) = none ∨
    ((createHandler apiKey form upstream now).2).map
      (fun r => (r.width, r.height)) = some ((512 : Int), (512 : Int)) := by
  unfold createHandler
  repeat' (first | split | simp only [])
  all_goals simp

/-- C5 (amended): `/api/generate` parses optional width and height with
`parseInt`, substituting 1024 when the field is absent, non-numeric, or
parses to zero, and passes any other parsed integer (including negative
ones) upstream; `/api/create` ignores the width and height fields and
always submits 512 x 512. -/
theorem claim5_dimension_handling :
    (∀ (apiKey : Option String) (form : GenForm)
      (upstream : BflRequest → UpstreamResp) (oracle : Nat → FetchResult)
      (lat : Nat → Nat) (req : BflRequest),
      (generateHandler apiKey form upstream oracle lat).2.1 = some req →
      req.width = jsParseIntOrDefault form.width 1024 ∧
      req.height = jsParseIntOrDefault form.height 1024) ∧
    jsParseIntOrDefault none 1024 = 1024 ∧
    (∀ s, jsParseInt s = none → jsParseIntOrDefault (some s) 1024 = 1024) ∧
    (∀ s, jsParseInt s = some 0 → jsParseIntOrDefault (some s) 1024 = 1024) ∧
    (∀ s n, jsParseInt s = some n → n ≠ 0 → jsParseIntOrDefault (some s) 1024 = n) ∧
    (∀ (apiKey : Option String) (form : GenForm)
      (upstream : BflRequest → UpstreamResp) (now : String) (req : BflRequest),
      (createHandler apiKey form upstream now).2 = some req →
      req.width = 512 ∧ req.height = 512) := by
  refine ⟨?_, rfl, ?_, ?_, ?_, ?_⟩
  · intro apiKey form upstream oracle lat req h
    rcases generateHandler_dims apiKey form upstream oracle lat with hd | hd <;>
      rw [h] at hd <;> simp at hd
    exact hd
  · intro s hs; simp only [jsParseIntOrDefault]; rw [hs]
  · intro s hs; simp only [jsParseIntOrDefault]; rw [hs]; simp
  · intro s n hs hn; simp only [jsParseIntOrDefault]; rw [hs]; simp [hn]
  · intro apiKey form upstream now req h
    rcases createHandler_dims apiKey form upstream now with hd | hd <;>
      rw [h] at hd <;> simp at hd
    exact hd

/-- C5 witness: concrete submissions exercising the dimension handling:
`/api/generate` with width "2048" and absent height submits 2048 x 1024,
"abc" parses to the default, "-5" parses to -5, and `/api/create` submits
512 x 512. -/
theorem claim5_witness :
    (⟨"p", "", 1, 2048, 1024, 0, "jpeg"⟩ : BflRequest).width =
      jsParseIntOrDefault (some "2048") 1024 ∧
    (⟨"p", "", 1, 2048, 1024, 0, "jpeg"⟩ : BflRequest).height =
      jsParseIntOrDefault none 1024 ∧
    jsParseIntOrDefault (some "abc") 1024 = 1024 ∧
    jsParseIntOrDefault (some "-5") 1024 = -5 ∧
    (⟨"p", "", 1, 512, 512, 0, "jpeg"⟩ : BflRequest).width = 512 ∧
    (⟨"p", "", 1, 512, 512, 0, "jpeg"⟩ : BflRequest).height = 512 := by
  obtain ⟨h1, h2, h3, h4, h5, h6⟩ := claim5_dimension_handling
  obtain ⟨hw, hh⟩ := h1 (some "key") ⟨some "p", some (.file []), some "2048", none⟩
    okUpstream pendingOracle (fun _ => 0) ⟨"p", "", 1, 2048, 1024, 0, "jpeg"⟩ rfl
  obtain ⟨cw, ch⟩ := h6 (some "key") okForm okUpstream "ts"
    ⟨"p", "", 1, 512, 512, 0, "jpeg"⟩ rfl
  exact ⟨hw, hh, h3 "abc" rfl, h5 "-5" (-5) rfl (by decide), cw, ch⟩

/-- C5 counterexample: `/api/generate` passes the negative width -5
upstream (so the dimensions sent upstream are not always positive), and
`/api/create` ignores an explicit width of 2048 and submits 512 (so it
neither accepts the field nor defaults to 1024). -/
theorem claim5_counterexample :
    (generateHandler (some "key") ⟨some "p", some (.file []), some "-5", none⟩
       okUpstream pendingOracle (fun _ => 0)).2.1 =
      some ⟨"p", "", 1, -5, 1024, 0, "jpeg"⟩ ∧
    ((-5 : Int) < 0) ∧
    (createHandler (some "key") ⟨some "p", some (.file []), some "2048", none⟩
       okUpstream "ts").2 = some ⟨"p", "", 1, 512, 512, 0, "jpeg"⟩ ∧
    (512 : Int) ≠ 2048 :=
  ⟨rfl, by decide, rfl, by decide⟩

/-- C6 (amended): when the first status fetch returns a status that is
neither `Pending` nor `Ready`, the `/api/generate` poll loop fails with
the UnexpectedStatus error naming that status after exactly one fetch and
no retry; the `/api/getImage` variant instead leaves its loop after a
second discarded fetch and proceeds to extract `result.sample`, answering
it as a success when present. -/
theorem claim6_unexpected_first_status (oracle : Nat → FetchResult)
    (lat : Nat → Nat) (m dm : Nat) (d : StatusPayload) (sf : Option String)
    (hm : 0 < m) (ho : oracle 0 = FetchResult.ok d)
    (hnr : d.status ≠ "Ready") (hnp : d.status ≠ "Pending") :
    ((genPollPart oracle lat m dm).1 =
      ⟨500, .errorBody ("Unexpected status: " ++ d.status)⟩ ∧
     (genPollPart oracle lat m dm).2.length = 1) ∧
    (∀ imageUrl, jsFalsyStr imageUrl = false → d.result = some sf →
      getImageHandler imageUrl oracle = (⟨200, .imageBody sf⟩, 2)) := by
  have hloop : genLoop oracle lat m dm 0 0 none = (.unexpected d.status, [0]) := by
    unfold genLoop
    rw [dif_pos hm, ho]
    simp only []
    rw [if_neg hnr, if_neg hnp]
  constructor
  · simp only [genPollPart, hloop]
    simp
  · intro imageUrl hurl hres
    have hloop2 : getImageLoop oracle "Pending" 1 0 none =
        (.exited d.status (some d), 2) := by
      unfold getImageLoop
      rw [if_pos rfl, ho]
      simp only []
      rw [dif_neg (by omega)]
      unfold getImageLoop
      rw [if_neg hnp]
    unfold getImageHandler
    rw [hurl]
    simp only [Bool.false_eq_true, if_false, hloop2]
    rw [if_neg hnp, hres]

/-- Status oracle whose job reports the unexpected status "Error" with a
nested sample on every fetch. -/
def errOracle : Nat → FetchResult :=
  fun _ => .ok ⟨"Error", some (some "https://x/img.jpg"), none⟩

/-- C6 witness: a first fetch with status "Error" makes `/api/generate`
answer the UnexpectedStatus failure after one fetch, while `/api/getImage`
answers the extracted sample as a success after two fetches. -/
theorem claim6_witness :
    ((genPollPart errOracle (fun _ => 0) 45 2000).1 =
      ⟨500, .errorBody ("Unexpected status: " ++ "Error")⟩ ∧
     (genPollPart errOracle (fun _ => 0) 45 2000).2.length = 1) ∧
    getImageHandler (some "https://poll.example/job") errOracle =
      (⟨200, .imageBody (some "https://x/img.jpg")⟩, 2) := by
  obtain ⟨h1, h2⟩ := claim6_unexpected_first_status errOracle (fun _ => 0) 45 2000
    ⟨"Error", some (some "https://x/img.jpg"), none⟩ (some "https://x/img.jpg")
    (by omega) rfl (by decide) (by decide)
  exact ⟨h1, h2 (some "https://poll.example/job") rfl rfl⟩

/-- C6 counterexample: on a first status fetch returning "Error" (neither
`Pending` nor `Ready`), the `/api/getImage` poll loop does not fail with
an UnexpectedStatus error after one fetch: it issues two fetches and
answers HTTP 200 with the extracted sample. -/
theorem claim6_counterexample :
    errOracle 0 = FetchResult.ok ⟨"Error", some (some "https://x/img.jpg"), none⟩ ∧
    getImageHandler (some "https://poll.example/job") errOracle =
      (⟨200, .imageBody (some "https://x/img.jpg")⟩, 2) ∧
    (getImageHandler (some "https://poll.example/job") errOracle).2 ≠ 1 := by
  refine ⟨rfl, ?_, ?_⟩
  · simp [getImageHandler, getImageLoop, errOracle, jsFalsyStr]
  · simp [getImageHandler, getImageLoop, errOracle, jsFalsyStr]

/-- C7 (amended): the `/api/generate` extraction handles both payload
shapes: a nested result object with a non-empty sample yields that sample,
a top-level non-empty sample with no nested result yields that sample, and
a `Ready` payload with neither yields the MissingResult failure.  The
`/api/getImage` extraction reads only `data.result.sample`, so it does not
support the top-level shape (see the counterexample). -/
theorem claim7_sample_extraction :
    (∀ (u : String) (st : String) (top : Option String), u ≠ "" →
      genExtractSample ⟨st, some (some u), top⟩ = some u) ∧
    (∀ (u : String) (st : String), u ≠ "" →
      genExtractSample ⟨st, none, some u⟩ = some u) ∧
    (∀ st : String, truthyOptStr (genExtractSample ⟨st, none, none⟩) = false) ∧
    (∀ (oracle : Nat → FetchResult) (lat : Nat → Nat) (m dm : Nat)
      (d : StatusPayload), 1 < m → oracle 0 = FetchResult.ok d →
      d.status = "Ready" → truthyOptStr (genExtractSample d) = false →
      (genPollPart oracle lat m dm).1 = ⟨500, .errorBody "No image URL in result"⟩) := by
  refine ⟨?_, ?_, ?_, ?_⟩
  · intro u st top hu
    simp [genExtractSample, jsOrStr, truthyOptStr, hu]
  · intro u st hu
    simp [genExtractSample, jsOrStr, truthyOptStr, hu]
  · intro st
    simp [genExtractSample, jsOrStr, truthyOptStr]
  · intro oracle lat m dm d hm ho hready hmiss
    have hloop : genLoop oracle lat m dm 0 0 none = (.exited 1 (some d), [0]) := by
      unfold genLoop
      rw [dif_pos (by omega), ho]
      simp only []
      rw [if_pos hready]
    simp only [genPollPart, hloop]
    rw [if_neg (by omega)]
    rw [if_neg (by rw [hready]; simp)]
    rw [if_neg (by rw [hmiss]; simp)]

/-- Status oracle whose job is immediately Ready with only a top-level
sample field (no nested result object). -/
def topSampleOracle : Nat → FetchResult :=
  fun _ => .ok ⟨"Ready", none, some "https://y/img.png"⟩

/-- C7 witness: the nested shape yields its sample, the top-level shape
yields its sample, and a Ready payload with neither yields the
MissingResult failure on `/api/generate`. -/
theorem claim7_witness :
    genExtractSample ⟨"Ready", some (some "https://x/img.jpg"), none⟩ =
      some "https://x/img.jpg" ∧
    genExtractSample ⟨"Ready", none, some "https://y/img.png"⟩ =
      some "https://y/img.png" ∧
    (genPollPart (fun _ => .ok ⟨"Ready", none, none⟩) (fun _ => 0) 45 2000).1 =
      ⟨500, .errorBody "No image URL in result"⟩ := by
  obtain ⟨h1, h2, h3, h4⟩ := claim7_sample_extraction
  exact ⟨h1 "https://x/img.jpg" "Ready" none (by decide),
    h2 "https://y/img.png" "Ready" (by decide),
    h4 (fun _ => .ok ⟨"Ready", none, none⟩) (fun _ => 0) 45 2000
      ⟨"Ready", none, none⟩ (by omega) rfl rfl (h3 "Ready")⟩

/-- C7 counterexample: a terminal Ready payload shaped with only the
top-level sample field makes `/api/getImage` throw on the unguarded
`data.result.sample` read and answer the 500 catch response, not the
sample URL the claim requires. -/
theorem claim7_counterexample :
    topSampleOracle 0 = FetchResult.ok ⟨"Ready", none, some "https://y/img.png"⟩ ∧
    getImageHandler (some "https://poll.example/job") topSampleOracle =
      (⟨500, .errorDetailsBody "Failed to process image request"
        "TypeError: data.result is undefined"⟩, 2) ∧
    (getImageHandler (some "https://poll.example/job") topSampleOracle).1 ≠
      ⟨200, .imageBody (some "https://y/img.png")⟩ := by
  refine ⟨rfl, ?_, ?_⟩
  · simp [getImageHandler, getImageLoop, topSampleOracle, jsFalsyStr]
  · simp [getImageHandler, getImageLoop, topSampleOracle, jsFalsyStr]

/-- C8 (confirmed): on an empty or absent prompt, `/api/generate`
substitutes the fixed default prompt in the submitted upstream request,
while `/api/create` rejects with the 400 ValidationError and makes no
upstream call. -/
theorem claim8_prompt_fallback (apiKey : Option String) (form : GenForm)
    (upstream : BflRequest → UpstreamResp) (oracle : Nat → FetchResult)
    (lat : Nat → Nat) (now : String) (bytes : List (Fin 256))
    (hkey : jsFalsyStr apiKey = false)
    (hprompt : jsFalsyStr form.prompt = true)
    (himg : form.image = some (.file bytes)) :
    ((generateHandler apiKey form upstream oracle lat).2.1).map
      (fun r => r.prompt) = some defaultPrompt ∧
    createHandler apiKey form upstream now =
      (⟨400, .errorBody "Prompt required"⟩, none) := by
  constructor
  · unfold generateHandler
    rw [hkey]
    simp only [Bool.false_eq_true, if_false]
    rcases hp : form.prompt with _ | s <;> rw [himg] <;> simp only []
    · repeat' (first | split | simp only [])
      all_goals simp_all
    · rw [hp] at hprompt
      simp [jsFalsyStr] at hprompt
      subst hprompt
      repeat' (first | split | simp only [])
      all_goals simp_all
  · unfold createHandler
    rw [hkey]
    simp only [Bool.false_eq_true, if_false]
    rw [hprompt]
    simp

/-- C8 witness: with prompt "" and an image file, `/api/generate` submits
the default prompt upstream and `/api/create` answers 400 with no
upstream call. -/
theorem claim8_witness :
    ((generateHandler (some "key") ⟨some "", some (.file []), none, none⟩
        okUpstream pendingOracle (fun _ => 0)).2.1).map (fun r => r.prompt) =
      some defaultPrompt ∧
    createHandler (some "key") ⟨some "", some (.file []), none, none⟩
        okUpstream "ts" = (⟨400, .errorBody "Prompt required"⟩, none) :=
  claim8_prompt_fallback (some "key") ⟨some "", some (.file []), none, none⟩
    okUpstream pendingOracle (fun _ => 0) "ts" [] rfl rfl rfl

/-- Whether a form field holds an uploaded file. -/
def isFileField : Option FormField → Bool
  | some (.file _) => true
  | _ => false

/-- C9 (confirmed): when the form data holds no file-valued image payload
(and the API key is present), every submission endpoint answers HTTP 400
with an error body and issues no upstream call. -/
theorem claim9_missing_image (apiKey : Option String) (form : GenForm)
    (upstream : BflRequest → UpstreamResp) (oracle : Nat → FetchResult)
    (lat : Nat → Nat) (now : String)
    (hkey : jsFalsyStr apiKey = false)
    (himg : isFileField form.image = false) :
    generateHandler apiKey form upstream oracle lat =
      (⟨400, .errorBody "Image file required"⟩, none, []) ∧
    ((createHandler apiKey form upstream now).1.code = 400 ∧
     carriesError (createHandler apiKey form upstream now).1.body = true ∧
     (createHandler apiKey form upstream now).2 = none) ∧
    ((part000GenerateHandler apiKey form upstream now).1.code = 400 ∧
     carriesError (part000GenerateHandler apiKey form upstream now).1.body = true ∧
     (part000GenerateHandler apiKey form upstream now).2 = none) := by
  have hc : (createHandler apiKey form upstream now).1.code = 400 ∧
      carriesError (createHandler apiKey form upstream now).1.body = true ∧
      (createHandler apiKey form upstream now).2 = none := by
    unfold createHandler
    rw [hkey]
    simp only [Bool.false_eq_true, if_false]
    by_cases hp : jsFalsyStr form.prompt = true
    · rw [if_pos hp]
      exact ⟨rfl, rfl, rfl⟩
    · rw [if_neg hp]
      rcases hI : form.image with _ | f
      · exact ⟨rfl, rfl, rfl⟩
      · rcases f with b | s2
        · rw [hI] at himg; simp [isFileField] at himg
        · exact ⟨rfl, rfl, rfl⟩
  refine ⟨?_, hc, ?_⟩
  · unfold generateHandler
    rw [hkey]
    simp only [Bool.false_eq_true, if_false]
    rcases hI : form.image with _ | f
    · rfl
    · rcases f with b | s2
      · rw [hI] at himg; simp [isFileField] at himg
      · rfl
  · unfold part000GenerateHandler
    exact hc

/-- C9 witness: a submission with prompt but no image field is rejected
with 400 by all three submission handlers, with no upstream call. -/
theorem claim9_witness :
    generateHandler (some "key") ⟨some "p", none, none, none⟩ okUpstream
      pendingOracle (fun _ => 0) = (⟨400, .errorBody "Image file required"⟩, none, []) ∧
    ((createHandler (some "key") ⟨some "p", none, none, none⟩ okUpstream "ts").1.code = 400 ∧
     carriesError (createHandler (some "key") ⟨some "p", none, none, none⟩
       okUpstream "ts").1.body = true ∧
     (createHandler (some "key") ⟨some "p", none, none, none⟩ okUpstream "ts").2 = none) ∧
    ((part000GenerateHandler (some "key") ⟨some "p", none, none, none⟩
       okUpstream "ts").1.code = 400 ∧
     carriesError (part000GenerateHandler (some "key") ⟨some "p", none, none, none⟩
       okUpstream "ts").1.body = true ∧
     (part000GenerateHandler (some "key") ⟨some "p", none, none, none⟩
       okUpstream "ts").2 = none) :=
  claim9_missing_image (some "key") ⟨some "p", none, none, none⟩ okUpstream
    pendingOracle (fun _ => 0) "ts" rfl rfl

/-- Every 6-bit group decodes back to itself through the alphabet. -/
theorem b64Index_b64Char : ∀ i, i < 64 → b64Index (b64Char i) = some i := by decide

/-- No alphabet character is the padding character. -/
theorem b64Char_ne_pad : ∀ i, i < 64 → b64Char i ≠ '=' := by decide

/-- Decoding inverts encoding on byte lists (all values < 256). -/
theorem b64_decode_encode : ∀ (bs : List Nat), (∀ x ∈ bs, x < 256) →
    b64Decode (b64EncodeBytes bs) = some bs := by
  intro bs
  induction bs using b64EncodeBytes.induct with
  | case1 =>
    intro _
    rfl
  | case2 a =>
    intro h
    have ha : a < 256 := h a (by simp)
    unfold b64EncodeBytes b64Decode
    rw [b64Index_b64Char (a / 4) (by omega), b64Index_b64Char (a % 4 * 16) (by omega)]
    simp only [Option.some_bind]
    simp
    omega
  | case3 a b =>
    intro h
    have ha : a < 256 := h a (by simp)
    have hb : b < 256 := h b (by simp)
    unfold b64EncodeBytes b64Decode
    rw [b64Index_b64Char (a / 4) (by omega),
      b64Index_b64Char (a % 4 * 16 + b / 16) (by omega)]
    simp only [Option.some_bind]
    rw [if_neg (b64Char_ne_pad (b % 16 * 4) (by omega))]
    rw [b64Index_b64Char (b % 16 * 4) (by omega)]
    simp only [Option.some_bind]
    simp
    omega
  | case4 a b c rest ih =>
    intro h
    have ha : a < 256 := h a (by simp)
    have hb : b < 256 := h b (by simp)
    have hc : c < 256 := h c (by simp)
    have hrest := ih (fun x hx => h x (by simp [hx]))
    unfold b64EncodeBytes b64Decode
    rw [b64Index_b64Char (a / 4) (by omega),
      b64Index_b64Char (a % 4 * 16 + b / 16) (by omega)]
    simp only [Option.some_bind]
    rw [if_neg (b64Char_ne_pad (b % 16 * 4 + c / 64) (by omega))]
    rw [b64Index_b64Char (b % 16 * 4 + c / 64) (by omega)]
    simp only [Option.some_bind]
    rw [if_neg (b64Char_ne_pad (c % 64) (by omega))]
    rw [b64Index_b64Char (c % 64) (by omega)]
    simp only [Option.some_bind]
    rw [hrest]
    simp
    refine ⟨by omega, by omega, by omega⟩

/-- C10 (confirmed): `arrayBufferToBase64` produces the standard base64
encoding of exactly the buffer bytes, and base64-decoding its output
recovers the original byte sequence, for buffers of any length. -/
theorem claim10_base64_roundtrip (buffer : List (Fin 256)) :
    arrayBufferToBase64 buffer = btoa (buffer.map Fin.val) ∧
    b64DecodeString (arrayBufferToBase64 buffer) = some (buffer.map Fin.val) := by
  refine ⟨rfl, ?_⟩
  unfold arrayBufferToBase64 btoa b64DecodeString
  show b64Decode (String.mk (b64EncodeBytes (buffer.map Fin.val))).data = _
  rw [show (String.mk (b64EncodeBytes (buffer.map Fin.val))).data =
    b64EncodeBytes (buffer.map Fin.val) from rfl]
  refine b64_decode_encode _ ?_
  intro x hx
  simp only [List.mem_map] at hx
  obtain ⟨y, _, rfl⟩ := hx
  exact y.isLt

/-- C3 witness: concrete instances of the per-variant bounds and of the
distinctness of the timeout and unexpected-status failures. -/
theorem claim3_witness :
    (genPollPart pendingOracle (fun _ => 0) 45 2000).2.length ≤ 45 ∧
    (getImageHandler (some "https://poll.example/job") pendingOracle).2 ≤ 238 ∧
    (part000GetImageHandler (some "https://poll.example/job") pendingOracle).2 ≤ 10 ∧
    (⟨500, .errorBody ("Unexpected status: " ++ "Error")⟩ : Resp) ≠
      ⟨500, .errorBody "Image processing timed out after multiple attempts"⟩ :=
  ⟨claim3_per_variant_fetch_bounds.1 pendingOracle (fun _ => 0) 45 2000,
   claim3_per_variant_fetch_bounds.2.2.1 (some "https://poll.example/job") pendingOracle,
   claim3_per_variant_fetch_bounds.2.2.2.1 (some "https://poll.example/job") pendingOracle,
   claim3_per_variant_fetch_bounds.2.2.2.2 "Error"⟩

/-- C4 witness: concrete instances of the response-shape dichotomy for
both handlers. -/
theorem claim4_witness :
    (((generateHandler (some "key") okForm okUpstream errOracle (fun _ => 0)).1.code = 200 ∧
      isImageSuccess (generateHandler (some "key") okForm okUpstream errOracle
        (fun _ => 0)).1.body = true) ∨
     (((generateHandler (some "key") okForm okUpstream errOracle (fun _ => 0)).1.code = 400 ∨
       (generateHandler (some "key") okForm okUpstream errOracle (fun _ => 0)).1.code = 500) ∧
      carriesError (generateHandler (some "key") okForm okUpstream errOracle
        (fun _ => 0)).1.body = true)) ∧
    (((createHandler (some "key") okForm okUpstream "ts").1.code = 200 ∧
      isCreateSuccess (createHandler (some "key") okForm okUpstream "ts").1.body = true) ∨
     (((createHandler (some "key") okForm okUpstream "ts").1.code = 400 ∨
       (createHandler (some "key") okForm okUpstream "ts").1.code = 500) ∧
      carriesError (createHandler (some "key") okForm okUpstream "ts").1.body = true)) :=
  ⟨claim4_response_shapes.1 (some "key") okForm okUpstream errOracle (fun _ => 0),
   claim4_response_shapes.2 (some "key") okForm okUpstream "ts"⟩
